import Mathlib

/-!
Verification of the periodic analytics-and-notification engine of the
AI-Fridge-Elf backend: the stats classifier, monthly aggregator, suggestion
generator (src/backend/src/services/monthly_stats_service.py) and the three
scheduled jobs plus the scheduler lifecycle
(src/backend/src/services/scheduler.py), shallowly embedded in Lean 4.

Python `datetime.date` values are modelled as `Date` (year, month, day, each
an integer) with the lexicographic order Python uses; `datetime.datetime`
values as `DT` (date plus hour, minute, second, microsecond).  Currency
amounts are modelled as exact rationals; Python's `round` is modelled as
round-half-to-even over those rationals.  Database query results are passed
in as explicit lists; `datetime.now()` is a parameter `today`.
-/

namespace FridgeElf

/-- A calendar date (year, month, day), compared lexicographically exactly as
Python `datetime.date` compares. -/
structure Date where
  y : Int
  m : Int
  d : Int
  deriving DecidableEq, Repr

/-- A timestamp: date plus hour/minute/second/microsecond, compared
lexicographically exactly as Python `datetime.datetime` compares. -/
structure DT where
  y : Int
  m : Int
  d : Int
  hour : Int
  minute : Int
  second : Int
  usec : Int
  deriving DecidableEq, Repr

/-- Python `datetime.date(a) <= datetime.date(b)`: lexicographic. -/
def Date.le (a b : Date) : Prop :=
  a.y < b.y ∨ (a.y = b.y ∧ (a.m < b.m ∨ (a.m = b.m ∧ a.d ≤ b.d)))

instance (a b : Date) : Decidable (Date.le a b) := by
  unfold Date.le; infer_instance

/-- Python `datetime(a) <= datetime(b)`: lexicographic on all seven fields. -/
def DT.le (a b : DT) : Prop :=
  a.y < b.y ∨ (a.y = b.y ∧ (a.m < b.m ∨ (a.m = b.m ∧
    (a.d < b.d ∨ (a.d = b.d ∧ (a.hour < b.hour ∨ (a.hour = b.hour ∧
      (a.minute < b.minute ∨ (a.minute = b.minute ∧
        (a.second < b.second ∨ (a.second = b.second ∧ a.usec ≤ b.usec)))))))))))

instance (a b : DT) : Decidable (DT.le a b) := by
  unfold DT.le; infer_instance

/-- Python `datetime.date()`: drop the time-of-day fields. -/
def DT.date (t : DT) : Date := ⟨t.y, t.m, t.d⟩

/-- The Gregorian leap-year rule used by Python's `calendar` module. -/
def isLeap (y : Int) : Bool :=
  y % 4 == 0 && (y % 100 != 0 || y % 400 == 0)

/-- Python `calendar.monthrange(y, m).1`: the number of days in month `m` of year
`y` (for `m` between 1 and 12). -/
def daysInMonth (y m : Int) : Int :=
  if m = 2 then (if isLeap y then 29 else 28)
  else if m = 4 ∨ m = 6 ∨ m = 9 ∨ m = 11 then 30
  else 31

/-- The day after `d` in the proleptic Gregorian calendar; iterating this
models Python `date + timedelta(days=1)`. -/
def Date.next (dt : Date) : Date :=
  if dt.d < daysInMonth dt.y dt.m then ⟨dt.y, dt.m, dt.d + 1⟩
  else if dt.m < 12 then ⟨dt.y, dt.m + 1, 1⟩
  else ⟨dt.y + 1, 1, 1⟩

/-- Python `date + timedelta(days=k)` for a non-negative `k`. -/
def Date.addDays (dt : Date) : Nat → Date
  | 0 => dt
  | k + 1 => (Date.addDays dt k).next

/-- Python `date.toordinal`, up to a constant offset: the days-from-civil formula
counting days of the proleptic Gregorian calendar, written with floor
division.  Only differences of ordinals are used (Python
`(date1 - date2).days`). -/
def Date.toOrdinal (dt : Date) : Int :=
  let y := if dt.m ≤ 2 then dt.y - 1 else dt.y
  let era := y.fdiv 400
  let yoe := y - era * 400
  let mp := (dt.m + 9) % 12
  let doy := (153 * mp + 2).fdiv 5 + dt.d - 1
  let doe := yoe * 365 + yoe.fdiv 4 - yoe.fdiv 100 + doy
  era * 146097 + doe

/-- Python `(a - b).days` for two dates. -/
def Date.sub (a b : Date) : Int := a.toOrdinal - b.toOrdinal

/-- A `FoodItem` row, with the fields the core reads.  Nullable columns are
`Option`; `status` and `disposal_reason` are the raw strings the code
compares against. -/
structure FoodItem where
  fridge_id : Int
  name : String
  category : Option String
  price : Option ℚ
  purchase_date : Option DT
  expiry_date : Option Date
  status : String
  disposal_reason : Option String
  archived_at : Option DT
  deriving DecidableEq, Repr

/-- The two lifecycle outcomes the stats classifier decides between. -/
inductive Outcome where
  | used
  | wasted
  deriving DecidableEq, Repr

/-- The classification branch of `MonthlyStatsService._calculate_stats`
(monthly_stats_service.py lines 115-133): disposal_reason `'used'` wins,
then `'wasted'`; otherwise, when both expiry_date and archived_at are
present, compare `archived_at.date() <= expiry_date`; otherwise default to
used. -/
def classifyItem (it : FoodItem) : Outcome :=
  if it.disposal_reason = some "used" then .used
  else if it.disposal_reason = some "wasted" then .wasted
  else
    match it.expiry_date, it.archived_at with
    | some e, some a => if Date.le a.date e then .used else .wasted
    | _, _ => .used

/-- C1: the classifier follows the stated priority: an explicit
disposal_reason of "used"/"wasted" decides the outcome regardless of dates;
otherwise with both expiry_date and archived_at present the item is used
iff `archived_at.date() <= expiry_date`; and with neither a disposal_reason
nor an expiry_date the item is used. -/
theorem classifyItem_priority (it : FoodItem) :
    (it.disposal_reason = some "used" → classifyItem it = .used) ∧
    (it.disposal_reason = some "wasted" → classifyItem it = .wasted) ∧
    (it.disposal_reason ≠ some "used" → it.disposal_reason ≠ some "wasted" →
      ∀ e a, it.expiry_date = some e → it.archived_at = some a →
        (classifyItem it = .used ↔ Date.le a.date e)) ∧
    (it.disposal_reason = none → it.expiry_date = none →
      classifyItem it = .used) := by
  unfold classifyItem
  refine ⟨fun h => by simp [h], fun h => ?_, fun h1 h2 e a he ha => ?_, fun h1 h2 => ?_⟩
  · rw [h]; simp only [reduceIte]
    split
    · simp_all
    · rfl
  · simp only [h1, h2, reduceIte, he, ha]
    constructor
    · intro h3
      by_contra hle
      simp [hle] at h3
    · intro hle
      simp [hle]
  · simp only [h1, h2]
    simp

/-- Witness for C1: concrete items exercising each branch. -/
theorem classifyItem_priority_cases :
    classifyItem ⟨1, "milk", none, some 100, none, some ⟨2026, 1, 1⟩, "archived",
        some "used", some ⟨2026, 2, 9, 0, 0, 0, 0⟩⟩ = .used ∧
    classifyItem ⟨1, "egg", none, some 50, none, none, "archived",
        some "wasted", some ⟨2026, 2, 9, 0, 0, 0, 0⟩⟩ = .wasted ∧
    classifyItem ⟨1, "tofu", none, none, none, some ⟨2026, 1, 1⟩, "archived",
        none, some ⟨2026, 2, 9, 0, 0, 0, 0⟩⟩ = .wasted ∧
    classifyItem ⟨1, "salt", none, none, none, none, "archived",
        none, some ⟨2026, 2, 9, 0, 0, 0, 0⟩⟩ = .used := by
  refine ⟨(classifyItem_priority _).1 rfl, (classifyItem_priority _).2.1 rfl, ?_, ?_⟩
  · have h := ((classifyItem_priority ⟨1, "tofu", none, none, none, some ⟨2026, 1, 1⟩,
      "archived", none, some ⟨2026, 2, 9, 0, 0, 0, 0⟩⟩).2.2.1 (by simp) (by simp)
      ⟨2026, 1, 1⟩ ⟨2026, 2, 9, 0, 0, 0, 0⟩ rfl rfl)
    cases hc : classifyItem ⟨1, "tofu", none, none, none, some ⟨2026, 1, 1⟩,
        "archived", none, some ⟨2026, 2, 9, 0, 0, 0, 0⟩⟩ with
    | used => exact absurd (h.mp hc) (by decide)
    | wasted => rfl
  · exact (classifyItem_priority _).2.2.2 rfl rfl

/-- The floor of a rational, written without type-class indirection so that
the kernel can evaluate it. -/
def ratFloor (q : ℚ) : Int := q.num.fdiv (q.den : Int)

/-- Round-half-to-even to the nearest integer: the tie-breaking rule of
Python's built-in `round`, idealized over exact rationals. -/
def roundHalfEven (q : ℚ) : Int :=
  let f := ratFloor q
  let r := q - (f : ℚ)
  if r < 1 / 2 then f
  else if r > 1 / 2 then f + 1
  else if f % 2 = 0 then f else f + 1

/-- Powers of ten as rationals, written recursively so that the kernel can
evaluate them. -/
def pow10 : Nat → ℚ
  | 0 => 1
  | k + 1 => pow10 k * 10

/-- Python `round(q, n)` idealized over exact rationals. -/
def pyRound (n : Nat) (q : ℚ) : ℚ :=
  (roundHalfEven (q * pow10 n) : ℚ) / pow10 n

/-- The function `ratFloor` agrees with Mathlib's floor (used to evaluate concrete
roundings). -/
theorem ratFloor_eq_floor (q : ℚ) : ratFloor q = ⌊q⌋ := by
  rw [ratFloor, Rat.floor_def, Int.fdiv_eq_ediv]
  exact Int.natCast_nonneg _

/-- Python `sum(item.price or 0 for item in items)`. -/
def sumPrices (items : List FoodItem) : ℚ :=
  (items.map (fun it => it.price.getD 0)).sum

/-- Decide whether a classified outcome is `used`. -/
def Outcome.isUsed : Outcome → Bool
  | .used => true
  | .wasted => false

/-- The used sublist of the archived items: the loop of `_calculate_stats`
appends each item classified `used` to `used_items`, in order. -/
def usedItems (archived : List FoodItem) : List FoodItem :=
  archived.filter (fun it => (classifyItem it).isUsed)

/-- The wasted sublist of the archived items. -/
def wastedItems (archived : List FoodItem) : List FoodItem :=
  archived.filter (fun it => !(classifyItem it).isUsed)

/-- Add one occurrence of category `c` to an insertion-ordered count list:
increment in place when present, append when new (one step of the
`wasted_categories` dict updates). -/
def bumpCategory (acc : List (String × Nat)) (c : String) : List (String × Nat) :=
  if acc.any (fun p => p.1 = c) then
    acc.map (fun p => if p.1 = c then (p.1, p.2 + 1) else p)
  else acc ++ [(c, 1)]

/-- Count the wasted items per category in iteration order, defaulting a
missing category to the sentinel label, as the `wasted_categories` dict of
`_calculate_stats` (lines 146-149). -/
def countCategories (items : List FoodItem) : List (String × Nat) :=
  items.foldl (fun acc it => bumpCategory acc (it.category.getD "未分類")) []

/-- Python `max(d, key=d.get)` over an insertion-ordered dict with distinct
keys: the first key attaining the maximal count (`most_wasted_category`,
line 151); `none` when the dict is empty. -/
def maxByCount : List (String × Nat) → Option String
  | [] => none
  | p :: rest => some ((rest.foldl (fun b q => if q.2 > b.2 then q else b) p).1)

/-- The record `_calculate_stats` returns (without the month label and ids
added by the caller). -/
structure MonthlyStats where
  saved_money : ℚ
  wasted_money : ℚ
  total_purchased : ℚ
  save_rate : ℚ
  waste_rate : ℚ
  used_count : Nat
  wasted_count : Nat
  purchased_count : Nat
  most_wasted_category : Option String
  suggestions : List String
  deriving DecidableEq, Repr

/-- The method `MonthlyStatsService._generate_suggestions` (lines 169-212): one praise
message by save-rate tier, an optional waste-tier bonus, an optional
category tip, a closing message, truncated to the first three. -/
def generateSuggestions (save_rate waste_rate : ℚ) (most_wasted_category : Option String) :
    List String :=
  let praise :=
    if save_rate ≥ 90 then "🌟✨ 哇！你是省錢達人耶！(๑>◡<๑) 完美的食材管理！"
    else if save_rate ≥ 80 then "👏🎉 超棒的！你真的很會管理食材呢！(´∀｀)♡ 繼續保持！"
    else if save_rate ≥ 70 then "👍💯 做得很好！你的食材幾乎沒浪費 (*´∀`*) 太厲害了！"
    else if save_rate ≥ 60 then "😊✨ 不錯的省錢表現！再加把勁就是完美了 (´･ᴗ･` )"
    else if save_rate ≥ 40 then "💪🌱 進步空間很大哦！加油管理食材 (๑•̀ㅂ•́)و✧"
    else if save_rate ≥ 20 then "📚💡 建議多注意食材效期，你一定可以做得更好 (•‾⌣‾•)"
    else "🤗💝 沒關係，每個人都在學習！從現在開始更用心吧 (´▽`ʃƪ)"
  let l₁ := [praise]
  let l₂ :=
    if waste_rate = 0 then l₁ ++ ["🏆👑 完全零浪費！你是環保小天使 (ﾉ◕ヮ◕)ﾉ*:･ﾟ✧"]
    else if waste_rate ≤ 5 then l₁ ++ ["🌟🌿 幾乎零浪費！地球會感謝你的 ✧(๑•̀ᄇ•́)و ✧"]
    else if waste_rate ≤ 15 then l₁ ++ ["💚🌱 浪費很少！你的環保意識很棒 (♡´▽`♡)"]
    else l₁
  let l₃ :=
    if waste_rate > 30 then
      match most_wasted_category with
      | some c => l₂ ++ ["🤔💭「" ++ c ++ "」常浪費？試試分裝保存吧！(´｡• ᵕ •｡`) ♡"]
      | none => l₂
    else if waste_rate > 15 then
      match most_wasted_category with
      | some c => l₂ ++ ["📝✨ 購買「" ++ c ++ "」時記得確認用量哦 (◡ ‿ ◡)"]
      | none => l₂
    else l₂
  let l₄ := l₃ ++
    [if save_rate ≥ 70 then "🎯🚀 下個月也要保持這個好習慣！你最棒了 (｡♥‿♥｡)"
     else "🌈💪 下個月一起努力達到更高省錢率吧 ٩(◕‿◕)۶"]
  l₄.take 3

/-- The method `MonthlyStatsService._calculate_stats` (lines 108-167): classify the
archived items, sum prices, compute save/waste rates (0 when nothing was
purchased), round, pick the most wasted category, generate suggestions. -/
def calculateStats (archived purchased : List FoodItem) : MonthlyStats :=
  let used := usedItems archived
  let wasted := wastedItems archived
  let saved_money := sumPrices used
  let wasted_money := sumPrices wasted
  let total_purchased := sumPrices purchased
  let save_rate := if total_purchased > 0 then saved_money / total_purchased * 100 else 0
  let waste_rate := if total_purchased > 0 then wasted_money / total_purchased * 100 else 0
  let most_wasted_category := maxByCount (countCategories wasted)
  { saved_money := pyRound 2 saved_money
    wasted_money := pyRound 2 wasted_money
    total_purchased := pyRound 2 total_purchased
    save_rate := pyRound 1 save_rate
    waste_rate := pyRound 1 waste_rate
    used_count := used.length
    wasted_count := wasted.length
    purchased_count := purchased.length
    most_wasted_category := most_wasted_category
    suggestions := generateSuggestions save_rate waste_rate most_wasted_category }

/-- Each archived item lands in exactly one of the two sublists. -/
theorem usedItems_length_add_wastedItems_length (l : List FoodItem) :
    (usedItems l).length + (wastedItems l).length = l.length := by
  induction l with
  | nil => rfl
  | cons h t ih =>
    unfold usedItems wastedItems at *
    simp only [List.filter_cons]
    cases hc : (classifyItem h).isUsed <;> simp [hc] <;> omega

/-- C10: the classification is an exact partition of the archived items:
used_count + wasted_count equals the number of archived items, and
purchased_count equals the number of purchased items. -/
theorem calculateStats_counts (archived purchased : List FoodItem) :
    (calculateStats archived purchased).used_count +
        (calculateStats archived purchased).wasted_count = archived.length ∧
    (calculateStats archived purchased).purchased_count = purchased.length :=
  ⟨usedItems_length_add_wastedItems_length archived, rfl⟩

/-- C9: for every save rate, waste rate and optional most-wasted category the
suggestion generator returns between 1 and 3 strings. -/
theorem generateSuggestions_length_bounds (save_rate waste_rate : ℚ)
    (most_wasted_category : Option String) :
    1 ≤ (generateSuggestions save_rate waste_rate most_wasted_category).length ∧
    (generateSuggestions save_rate waste_rate most_wasted_category).length ≤ 3 := by
  have key : ∀ (l : List String) (s : String),
      1 ≤ ((l ++ [s]).take 3).length ∧ ((l ++ [s]).take 3).length ≤ 3 := by
    intro l s
    constructor <;> simp [List.length_take]
  exact key _ _

/-- The example archived list of the C2 statistics case: one item of price
100 marked used and one of price 50 marked wasted. -/
def archivedCase : List FoodItem :=
  [⟨1, "item_a", none, some 100, none, none, "archived", some "used", none⟩,
   ⟨1, "item_b", none, some 50, none, none, "archived", some "wasted", none⟩]

/-- The example purchased list of the C2 statistics case, of total price
200. -/
def purchasedCase : List FoodItem :=
  [⟨1, "item_a", none, some 120, none, none, "archived", some "used", none⟩,
   ⟨1, "item_c", none, some 80, none, none, "active", none, none⟩]

/-- C2: the rates are the rounded percentages of the purchase total (0 when
nothing was purchased), the money sums are rounded to two decimals, and the
statistics example (archived prices 100 used / 50 wasted, purchases
totalling 200) yields saved 100, wasted 50, save rate 50.0, waste rate 25.0,
one used and one wasted item. -/
theorem calculateStats_rates :
    (∀ archived purchased : List FoodItem,
      (calculateStats archived purchased).save_rate =
        pyRound 1 (if sumPrices purchased > 0 then
          sumPrices (usedItems archived) / sumPrices purchased * 100 else 0) ∧
      (calculateStats archived purchased).waste_rate =
        pyRound 1 (if sumPrices purchased > 0 then
          sumPrices (wastedItems archived) / sumPrices purchased * 100 else 0) ∧
      (calculateStats archived purchased).saved_money =
        pyRound 2 (sumPrices (usedItems archived)) ∧
      (calculateStats archived purchased).wasted_money =
        pyRound 2 (sumPrices (wastedItems archived)) ∧
      (calculateStats archived purchased).total_purchased =
        pyRound 2 (sumPrices purchased) ∧
      (sumPrices purchased = 0 →
        (calculateStats archived purchased).save_rate = 0 ∧
        (calculateStats archived purchased).waste_rate = 0)) ∧
    (calculateStats archivedCase purchasedCase).saved_money = 100 ∧
    (calculateStats archivedCase purchasedCase).wasted_money = 50 ∧
    (calculateStats archivedCase purchasedCase).save_rate = 50 ∧
    (calculateStats archivedCase purchasedCase).waste_rate = 25 ∧
    (calculateStats archivedCase purchasedCase).used_count = 1 ∧
    (calculateStats archivedCase purchasedCase).wasted_count = 1 := by
  have hu : sumPrices (usedItems archivedCase) = 100 := by
    simp [sumPrices, usedItems, archivedCase, classifyItem, Outcome.isUsed]
  have hw : sumPrices (wastedItems archivedCase) = 50 := by
    simp [sumPrices, wastedItems, archivedCase, classifyItem, Outcome.isUsed]
  have hp : sumPrices purchasedCase = 200 := by
    norm_num [sumPrices, purchasedCase]
  refine ⟨fun archived purchased => ⟨rfl, rfl, rfl, rfl, rfl, fun h0 => ?_⟩, ?_, ?_, ?_, ?_, ?_, ?_⟩
  · have hneg : ¬ (sumPrices purchased > 0) := by rw [h0]; exact lt_irrefl 0
    constructor <;>
      · show pyRound 1 (if sumPrices purchased > 0 then _ else 0) = 0
        rw [if_neg hneg, pyRound, roundHalfEven, ratFloor_eq_floor]
        norm_num [pow10]
  · show pyRound 2 (sumPrices (usedItems archivedCase)) = 100
    rw [hu, pyRound, roundHalfEven, ratFloor_eq_floor]
    norm_num [pow10]
  · show pyRound 2 (sumPrices (wastedItems archivedCase)) = 50
    rw [hw, pyRound, roundHalfEven, ratFloor_eq_floor]
    norm_num [pow10]
  · show pyRound 1 (if sumPrices purchasedCase > 0 then
        sumPrices (usedItems archivedCase) / sumPrices purchasedCase * 100 else 0) = 50
    rw [hu, hp, if_pos (by norm_num), pyRound, roundHalfEven, ratFloor_eq_floor]
    norm_num [pow10]
  · show pyRound 1 (if sumPrices purchasedCase > 0 then
        sumPrices (wastedItems archivedCase) / sumPrices purchasedCase * 100 else 0) = 25
    rw [hw, hp, if_pos (by norm_num), pyRound, roundHalfEven, ratFloor_eq_floor]
    norm_num [pow10]
  · show (usedItems archivedCase).length = 1
    simp [usedItems, archivedCase, classifyItem, Outcome.isUsed]
  · show (wastedItems archivedCase).length = 1
    simp [wastedItems, archivedCase, classifyItem, Outcome.isUsed]

/-- Witness for C2: the zero-purchase branch at a concrete input. -/
theorem calculateStats_rates_zero_case :
    (calculateStats archivedCase []).save_rate = 0 ∧
    (calculateStats archivedCase []).waste_rate = 0 :=
  (calculateStats_rates.1 archivedCase []).2.2.2.2.2 rfl

/-- A `Fridge` row, with the fields the jobs read. -/
structure FridgeRec where
  id : Int
  user_id : Int
  deriving DecidableEq, Repr

/-- A `NotificationSettings` row joined with its user's LINE address
(`settings.user.line_user_id`). -/
structure SettingsRec where
  user_id : Int
  line_user_id : String
  expiry_warning_enabled : Bool
  expiry_warning_days : Nat
  space_warning_enabled : Bool
  space_warning_threshold : ℚ
  deriving DecidableEq, Repr

/-- The slice of the data store the scheduled jobs query. -/
structure DB where
  settings : List SettingsRec
  fridges : List FridgeRec
  items : List FoodItem
  deriving Repr

/-- One entry of the `items_data` payload of an expiry notification:
name, expiry date, and signed days remaining. -/
structure ExpiryItemData where
  name : String
  expiry_date : Date
  days_remaining : Int
  deriving DecidableEq, Repr

/-- The join `FoodItem JOIN Fridge ON fridge_id = Fridge.id` filtered on
`Fridge.user_id` (scheduler.py lines 115-117), assuming distinct fridge
ids. -/
def itemBelongsTo (db : DB) (userId : Int) (it : FoodItem) : Bool :=
  db.fridges.any (fun f => f.id == it.fridge_id && f.user_id == userId)

/-- The expiring-items query of `check_expiring_items` (lines 111-122): the
user's active items with a non-null expiry_date at most
`today + expiry_warning_days` days away. -/
def expiringItemsFor (db : DB) (today : Date) (s : SettingsRec) : List FoodItem :=
  let warning_date := today.addDays s.expiry_warning_days
  db.items.filter (fun it =>
    itemBelongsTo db s.user_id it &&
    (match it.expiry_date with
     | some e => decide (Date.le e warning_date)
     | none => false) &&
    it.status == "active")

/-- The `items_data` payload built from the expiring items (lines 126-133):
`days_remaining = (expiry_date - today).days`.  The query guarantees every
listed item has an expiry date. -/
def expiryPayload (today : Date) (items : List FoodItem) : List ExpiryItemData :=
  items.filterMap (fun it =>
    it.expiry_date.map (fun e => ⟨it.name, e, Date.sub e today⟩))

/-- The per-user body of `check_expiring_items`: a notification is prepared
exactly when the expiring set is non-empty (line 124). -/
def expiryNoticeFor (db : DB) (today : Date) (s : SettingsRec) :
    Option (String × List ExpiryItemData) :=
  let expiring := expiringItemsFor db today s
  if expiring.isEmpty then none
  else some (s.line_user_id, expiryPayload today expiring)

/-- The job `check_expiring_items` (lines 91-143) as a function from the queried
state to the list of notifications sent, iterating the users with the
expiry warning enabled. -/
def checkExpiringItems (db : DB) (today : Date) :
    List (String × List ExpiryItemData) :=
  (db.settings.filter (fun s => s.expiry_warning_enabled)).filterMap
    (expiryNoticeFor db today)

/-- The present day of the expiry-scan example: 2026-01-01. -/
def d0 : Date := ⟨2026, 1, 1⟩

/-- The settings row of the expiry-scan example: user 1, both warnings
enabled, a 3-day expiry horizon, an 80% space threshold. -/
def s0 : SettingsRec := ⟨1, "U1", true, 3, true, 80⟩

/-- The fridge of the expiry-scan example, owned by user 1. -/
def f0 : FridgeRec := ⟨10, 1⟩

/-- Active item expiring 2026-01-03 (2 days away). -/
def itA : FoodItem :=
  ⟨10, "apple", none, none, none, some ⟨2026, 1, 3⟩, "active", none, none⟩

/-- Active item that expired 2025-12-30 (2 days ago). -/
def itB : FoodItem :=
  ⟨10, "bread", none, none, none, some ⟨2025, 12, 30⟩, "active", none, none⟩

/-- Active item expiring 2026-01-10, beyond the 3-day horizon. -/
def itC : FoodItem :=
  ⟨10, "cake", none, none, none, some ⟨2026, 1, 10⟩, "active", none, none⟩

/-- Archived item that would otherwise fall inside the horizon. -/
def itD : FoodItem :=
  ⟨10, "durian", none, none, none, some ⟨2026, 1, 2⟩, "archived", some "used",
    some ⟨2026, 1, 1, 0, 0, 0, 0⟩⟩

/-- The database of the expiry-scan example. -/
def db0 : DB := ⟨[s0], [f0], [itA, itB, itC, itD]⟩

/-- C3: the expiry scan selects exactly the active items with a non-null
expiry date at most `expiry_warning_days` days away (expired ones
included), each listed with `days_remaining = expiry_date - today`; a
notification is prepared exactly when that set is non-empty; and in the
example (horizon 3, today 2026-01-01) the item expiring 2026-01-03 appears
with days_remaining 2 and the one expired 2025-12-30 with days_remaining
-2. -/
theorem checkExpiringItems_spec :
    (∀ (db : DB) (today : Date) (s : SettingsRec) (it : FoodItem),
      it ∈ expiringItemsFor db today s ↔
        it ∈ db.items ∧ itemBelongsTo db s.user_id it = true ∧
          it.status = "active" ∧
          ∃ e, it.expiry_date = some e ∧
            Date.le e (today.addDays s.expiry_warning_days)) ∧
    (∀ (db : DB) (today : Date) (s : SettingsRec),
      (expiryNoticeFor db today s).isSome ↔ expiringItemsFor db today s ≠ []) ∧
    (∀ (db : DB) (today : Date) (s : SettingsRec),
      s ∈ db.settings → s.expiry_warning_enabled = true →
        expiringItemsFor db today s ≠ [] →
        (s.line_user_id, expiryPayload today (expiringItemsFor db today s)) ∈
          checkExpiringItems db today) ∧
    checkExpiringItems db0 d0 =
      [("U1", [⟨"apple", ⟨2026, 1, 3⟩, 2⟩, ⟨"bread", ⟨2025, 12, 30⟩, -2⟩])] := by
  refine ⟨fun db today s it => ?_, fun db today s => ?_, fun db today s hs hen hne => ?_, ?_⟩
  · rw [expiringItemsFor, List.mem_filter]
    cases hx : it.expiry_date
    · simp [hx, Bool.and_eq_true, beq_iff_eq, decide_eq_true_eq]
    · simp [hx, Bool.and_eq_true, beq_iff_eq, decide_eq_true_eq]
      tauto
  · rw [expiryNoticeFor]
    rcases h : expiringItemsFor db today s with _ | ⟨a, l⟩ <;> simp [h]
  · refine List.mem_filterMap.mpr ⟨s, List.mem_filter.mpr ⟨hs, by simp [hen]⟩, ?_⟩
    rcases h : expiringItemsFor db today s with _ | ⟨a, l⟩
    · exact absurd h hne
    · simp only [expiryNoticeFor, h]
      simp
  · decide

/-- Witness for C3: the notification of the example database is in the
output of the scan. -/
theorem checkExpiringItems_spec_member :
    ("U1", expiryPayload d0 (expiringItemsFor db0 d0 s0)) ∈
      checkExpiringItems db0 d0 :=
  checkExpiringItems_spec.2.2.1 db0 d0 s0 (List.Mem.head _) rfl (by decide)

/-- The constant `DEFAULT_MAX_ITEMS` of `check_space_usage` (scheduler.py line 163): the
assumed per-fridge capacity. -/
def DEFAULT_MAX_ITEMS : Nat := 50

/-- The count of active items in a fridge (lines 182-185). -/
def activeCount (db : DB) (f : FridgeRec) : Nat :=
  (db.items.filter (fun it => it.fridge_id == f.id && it.status == "active")).length

/-- The quantity `usage_percentage = (item_count / DEFAULT_MAX_ITEMS) * 100`
(line 188). -/
def usagePercentage (db : DB) (f : FridgeRec) : ℚ :=
  (activeCount db f : ℚ) / (DEFAULT_MAX_ITEMS : ℚ) * 100

/-- The per-fridge body of `check_space_usage` (lines 180-197): a warning is
sent exactly when the usage reaches the user's threshold. -/
def spaceWarningFor (db : DB) (s : SettingsRec) (f : FridgeRec) :
    Option (String × ℚ) :=
  if usagePercentage db f ≥ s.space_warning_threshold then
    some (s.line_user_id, usagePercentage db f)
  else none

/-- The job `check_space_usage` (lines 152-209) as a function from the queried state
to the list of warnings sent: all fridges of all users with the space
warning enabled. -/
def checkSpaceUsage (db : DB) : List (String × ℚ) :=
  (db.settings.filter (fun s => s.space_warning_enabled)).flatMap (fun s =>
    (db.fridges.filter (fun f => f.user_id == s.user_id)).filterMap
      (spaceWarningFor db s))

/-- The fridge of the space-scan example holding 45 active items. -/
def f1 : FridgeRec := ⟨1, 1⟩

/-- The fridge of the space-scan example holding 30 active items. -/
def f2 : FridgeRec := ⟨2, 1⟩

/-- The database of the space-scan example: user 1 (threshold 80) with 45
active items in fridge 1 and 30 in fridge 2. -/
def db1 : DB :=
  ⟨[s0], [f1, f2],
    List.replicate 45 ⟨1, "jam", none, none, none, none, "active", none, none⟩ ++
      List.replicate 30 ⟨2, "kale", none, none, none, none, "active", none, none⟩⟩

/-- C4: for every user and fridge the computed usage is
`active count / 50 × 100` and a warning is sent exactly when it reaches the
user's threshold; in the example (capacity 50, threshold 80) the fridge
with 45 active items gives 90% and fires, the one with 30 gives 60% and
does not. -/
theorem checkSpaceUsage_spec :
    (∀ (db : DB) (f : FridgeRec),
      usagePercentage db f = (activeCount db f : ℚ) / 50 * 100) ∧
    (∀ (db : DB) (s : SettingsRec) (f : FridgeRec),
      spaceWarningFor db s f = some (s.line_user_id, usagePercentage db f) ↔
        usagePercentage db f ≥ s.space_warning_threshold) ∧
    (∀ (db : DB) (s : SettingsRec) (f : FridgeRec),
      spaceWarningFor db s f = none ↔
        ¬ usagePercentage db f ≥ s.space_warning_threshold) ∧
    usagePercentage db1 f1 = 90 ∧
    usagePercentage db1 f2 = 60 ∧
    checkSpaceUsage db1 = [("U1", 90)] := by
  have hc1 : activeCount db1 f1 = 45 := by decide
  have hc2 : activeCount db1 f2 = 30 := by decide
  have hu1 : usagePercentage db1 f1 = 90 := by
    rw [usagePercentage, hc1]; norm_num [DEFAULT_MAX_ITEMS]
  have hu2 : usagePercentage db1 f2 = 60 := by
    rw [usagePercentage, hc2]; norm_num [DEFAULT_MAX_ITEMS]
  have hw1 : spaceWarningFor db1 s0 f1 = some ("U1", 90) := by
    rw [spaceWarningFor, hu1, if_pos (by norm_num [s0])]
    rfl
  have hw2 : spaceWarningFor db1 s0 f2 = none := by
    rw [spaceWarningFor, hu2, if_neg (by norm_num [s0])]
  refine ⟨fun db f => rfl, fun db s f => ?_, fun db s f => ?_, hu1, hu2, ?_⟩
  · rw [spaceWarningFor]
    split
    · simp_all
    · simp_all
  · rw [spaceWarningFor]
    split
    · simp_all
    · simp_all
  · rw [checkSpaceUsage, show db1.settings = [s0] from rfl,
      show db1.fridges = [f1, f2] from rfl]
    simp only [List.filter_cons, List.filter_nil,
      show s0.space_warning_enabled = true from rfl,
      show (f1.user_id == s0.user_id) = true from rfl,
      show (f2.user_id == s0.user_id) = true from rfl,
      if_true, List.flatMap_cons, List.flatMap_nil, List.filterMap_cons,
      List.filterMap_nil, hw1, hw2]
    simp

/-- Witness for C4: the warning decision of the example database, through
the characterization. -/
theorem checkSpaceUsage_spec_member :
    spaceWarningFor db1 s0 f1 = some (s0.line_user_id, usagePercentage db1 f1) :=
  (checkSpaceUsage_spec.2.1 db1 s0 f1).mpr (by
    rw [checkSpaceUsage_spec.1 db1 f1]
    norm_num [show activeCount db1 f1 = 45 by decide, s0])

/-- A cron trigger as used by `start_scheduler`: optional day of month,
hour, minute (all interpreted in the fixed regional time zone). -/
structure CronSpec where
  day : Option Int
  hour : Int
  minute : Int
  deriving DecidableEq, Repr

/-- The scheduler state: whether the runner is running and the registered
jobs (id and trigger), in registration order. -/
structure SchedState where
  running : Bool
  jobs : List (String × CronSpec)
  deriving DecidableEq, Repr

/-- APScheduler `add_job(..., id=id, replace_existing=True)`: re-registering
an existing job id overwrites its trigger in place, a new id is appended. -/
def addJob (jobs : List (String × CronSpec)) (id : String) (t : CronSpec) :
    List (String × CronSpec) :=
  if jobs.any (fun j => j.1 == id) then
    jobs.map (fun j => if j.1 == id then (id, t) else j)
  else jobs ++ [(id, t)]

/-- Trigger of the daily expiry scan: 09:00. -/
def expiryCron : CronSpec := ⟨none, 9, 0⟩

/-- Trigger of the daily space scan: 09:00. -/
def spaceCron : CronSpec := ⟨none, 9, 0⟩

/-- Trigger of the monthly report: 1st of the month, 10:00. -/
def monthlyCron : CronSpec := ⟨some 1, 10, 0⟩

/-- The function `start_scheduler` (scheduler.py lines 30-71): a no-op (with a warning)
when already running, otherwise register the three jobs with
replace-semantics and start the runner. -/
def startScheduler (s : SchedState) : SchedState :=
  if s.running then s
  else
    { running := true
      jobs := addJob (addJob (addJob s.jobs "check_expiring_items" expiryCron)
        "check_space_usage" spaceCron) "send_monthly_stats" monthlyCron }

/-- The function `stop_scheduler` (lines 74-88): a no-op (with a warning) when not
running, otherwise shut the runner down after draining. -/
def stopScheduler (s : SchedState) : SchedState :=
  if s.running then { s with running := false } else s

/-- The scheduler state at process start: stopped, no jobs. -/
def schedStart : SchedState := ⟨false, []⟩

/-- C5: start() on a running scheduler and stop() on a stopped one are
no-ops, start() is idempotent on the whole state, and two successive
start() calls from process start leave exactly the three job ids
check_expiring_items, check_space_usage, send_monthly_stats — once
each. -/
theorem scheduler_lifecycle :
    (∀ s : SchedState, s.running = true → startScheduler s = s) ∧
    (∀ s : SchedState, s.running = false → stopScheduler s = s) ∧
    (∀ s : SchedState, startScheduler (startScheduler s) = startScheduler s) ∧
    (startScheduler (startScheduler schedStart)).jobs.map Prod.fst =
      ["check_expiring_items", "check_space_usage", "send_monthly_stats"] := by
  have hstart : ∀ s : SchedState, s.running = true → startScheduler s = s := by
    intro s h
    rw [startScheduler, if_pos h]
  have hrunning : ∀ s : SchedState, (startScheduler s).running = true := by
    intro s
    by_cases h : s.running
    · rw [hstart s h]; exact h
    · rw [startScheduler, if_neg h]
  exact ⟨hstart, fun s h => by rw [stopScheduler, h]; simp,
    fun s => hstart _ (hrunning s), by decide⟩

/-- Witness for C5: the no-op branches at concrete states. -/
theorem scheduler_lifecycle_cases :
    startScheduler ⟨true, []⟩ = ⟨true, []⟩ ∧
    stopScheduler schedStart = schedStart :=
  ⟨scheduler_lifecycle.1 ⟨true, []⟩ rfl, scheduler_lifecycle.2.1 schedStart rfl⟩

/-- The `for ... : try ... except ... continue` pattern of the batch jobs:
run the body on every element, recording a failed iteration as `none` and
carrying on. -/
def runIsolated {α β ε : Type} (body : α → Except ε β) : List α → List (Option β)
  | [] => []
  | u :: rest =>
    match body u with
    | .ok b => some b :: runIsolated body rest
    | .error _ => none :: runIsolated body rest

/-- The job `check_expiring_items` with a fallible notification send, returning the
per-user outcomes: `none` for a caught failure, `some none` for a user with
nothing expiring, `some (some (addr, payload))` for a delivered
notification. -/
def checkExpiringItemsFallible (db : DB) (today : Date)
    (send : String → List ExpiryItemData → Except Unit Unit) :
    List (Option (Option (String × List ExpiryItemData))) :=
  runIsolated (fun s =>
      match expiryNoticeFor db today s with
      | none => .ok none
      | some (addr, payload) => (send addr payload).map (fun _ => some (addr, payload)))
    (db.settings.filter (fun s => s.expiry_warning_enabled))

/-- C6: the catch-and-continue loop processes every element regardless of
which iterations fail — its output is the elementwise list of caught
outcomes, so an exception in one user's iteration never escapes the loop
and all later users are still processed; in particular the expiry scan with
a fallible send always yields one outcome per enabled user. -/
theorem runIsolated_processes_all :
    (∀ {α β ε : Type} (body : α → Except ε β) (users : List α),
      runIsolated body users = users.map (fun u => (body u).toOption)) ∧
    (∀ (db : DB) (today : Date)
      (send : String → List ExpiryItemData → Except Unit Unit),
      checkExpiringItemsFallible db today send =
        (db.settings.filter (fun s => s.expiry_warning_enabled)).map (fun s =>
          (match expiryNoticeFor db today s with
            | none => Except.ok none
            | some (addr, payload) =>
              (send addr payload).map (fun _ => some (addr, payload)) :
              Except Unit (Option (String × List ExpiryItemData))).toOption)) := by
  have key : ∀ {α β ε : Type} (body : α → Except ε β) (users : List α),
      runIsolated body users = users.map (fun u => (body u).toOption) := by
    intro α β ε body users
    induction users with
    | nil => rfl
    | cons u rest ih =>
      rw [runIsolated]
      cases h : body u <;> simp [h, ih, Except.toOption]
  exact ⟨key, fun db today send => key _ _⟩

/-- The outcome of the database work inside
`calculate_user_monthly_stats`: either an exception was raised somewhere in
the `try` block, or the queries returned the user's first fridge (if any)
and the two item sets. -/
inductive FetchOutcome where
  | failure
  | ok (fridge : Option Int) (archived purchased : List FoodItem)

/-- The method `MonthlyStatsService.calculate_user_monthly_stats` (lines 49-105) as a
function of the fetch outcome: no fridge returns `None` (lines 72-74), an
exception is logged and also returns `None` (lines 101-103), otherwise the
computed statistics are returned. -/
def calculateUserMonthlyStats (r : FetchOutcome) : Option MonthlyStats :=
  match r with
  | .failure => none
  | .ok none _ _ => none
  | .ok (some _) archived purchased => some (calculateStats archived purchased)

/-- C7 counterexample: the no-fridge result and the internal-failure result
are the same value (`None`), so the no-data result is not distinct from the
failure outcome. -/
theorem calculateUserMonthlyStats_not_distinct :
    calculateUserMonthlyStats .failure =
      calculateUserMonthlyStats (.ok none [] []) ∧
    calculateUserMonthlyStats .failure = none :=
  ⟨rfl, rfl⟩

/-- C7 (amended): a user with no fridge yields `None` rather than an error,
but an internal failure during aggregation is represented by the same
`None`, not distinctly. -/
theorem calculateUserMonthlyStats_none :
    (∀ archived purchased : List FoodItem,
      calculateUserMonthlyStats (.ok none archived purchased) = none) ∧
    calculateUserMonthlyStats .failure = none :=
  ⟨fun _ _ => rfl, rfl⟩

/-- The method `MonthlyStatsService.get_last_month_date_range` (lines 28-46): the first
instant of the previous calendar month, and its last day at 23:59:59 (and 0
microseconds), both relative to `today`. -/
def getLastMonthRange (today : DT) : DT × DT :=
  let lastYear := if today.m = 1 then today.y - 1 else today.y
  let lastMonth : Int := if today.m = 1 then 12 else today.m - 1
  (⟨lastYear, lastMonth, 1, 0, 0, 0, 0⟩,
   ⟨lastYear, lastMonth, daysInMonth lastYear lastMonth, 23, 59, 59, 0⟩)

/-- A timestamp qualifies for the default statistics window when it lies
`between` the two bounds of `get_last_month_date_range` (SQL `BETWEEN` is
inclusive on both ends). -/
def inStatsWindow (today t : DT) : Prop :=
  DT.le (getLastMonthRange today).1 t ∧ DT.le t (getLastMonthRange today).2

instance (today t : DT) : Decidable (inStatsWindow today t) := by
  unfold inStatsWindow; infer_instance

/-- A well-formed timestamp: month, day and time fields in calendar
range. -/
def validDT (t : DT) : Prop :=
  1 ≤ t.m ∧ t.m ≤ 12 ∧ 1 ≤ t.d ∧ t.d ≤ daysInMonth t.y t.m ∧
    0 ≤ t.hour ∧ t.hour ≤ 23 ∧ 0 ≤ t.minute ∧ t.minute ≤ 59 ∧
    0 ≤ t.second ∧ t.second ≤ 59 ∧ 0 ≤ t.usec ∧ t.usec < 1000000

instance (t : DT) : Decidable (validDT t) := by
  unfold validDT; infer_instance

/-- The archived-items query of `calculate_user_monthly_stats`
(lines 77-83): items of the fridge with status archived and `archived_at`
between the window bounds. -/
def archivedItemsQuery (db : DB) (fid : Int) (ms me : DT) : List FoodItem :=
  db.items.filter (fun it =>
    it.fridge_id == fid && it.status == "archived" &&
    (match it.archived_at with
     | some t => decide (DT.le ms t) && decide (DT.le t me)
     | none => false))

/-- The purchased-items query of `calculate_user_monthly_stats`
(lines 86-91): items of the fridge with `purchase_date` between the window
bounds. -/
def purchasedItemsQuery (db : DB) (fid : Int) (ms me : DT) : List FoodItem :=
  db.items.filter (fun it =>
    it.fridge_id == fid &&
    (match it.purchase_date with
     | some t => decide (DT.le ms t) && decide (DT.le t me)
     | none => false))

/-- Archived item of the window example, archived half a millisecond before
the end of January 2026 (2026-01-31 23:59:59.000500). -/
def itE : FoodItem :=
  ⟨10, "egg", none, none, none, none, "archived", some "used",
    some ⟨2026, 1, 31, 23, 59, 59, 500⟩⟩

/-- The database of the window example. -/
def db2 : DB := ⟨[s0], [f0], [itE]⟩

/-- The current day of the window example: 2026-02-15 12:00, making January
2026 the previous month. -/
def todayFeb : DT := ⟨2026, 2, 15, 12, 0, 0, 0⟩

/-- C8 counterexample: an item archived at a well-formed instant of the
previous calendar month (2026-01-31 23:59:59.000500, i.e. within the
month's final second) is excluded from the archived set, because the window
ends at 23:59:59.000000 rather than the month's final instant. -/
theorem statsWindow_cex :
    (∃ t : DT, itE.archived_at = some t ∧ validDT t ∧ t.y = 2026 ∧ t.m = 1) ∧
    itE ∈ db2.items ∧ itE.status = "archived" ∧ itE.fridge_id = f0.id ∧
    itE ∉ archivedItemsQuery db2 f0.id (getLastMonthRange todayFeb).1
      (getLastMonthRange todayFeb).2 := by
  refine ⟨⟨⟨2026, 1, 31, 23, 59, 59, 500⟩, rfl, by decide, rfl, rfl⟩, ?_, rfl, rfl, ?_⟩
  · exact List.Mem.head _
  · decide

/-- C8 (amended): when no target month is supplied the window is the
previous calendar month from its first instant through 23:59:59.000000 of
its last day: every well-formed timestamp of the previous month with
a whole-second value (microsecond 0) qualifies, no timestamp outside the
previous month qualifies (timestamps in the fractional part of the final
second are excluded, as witnessed by the counterexample), and the two item
queries select exactly the fridge's items whose archived_at (respectively
purchase_date) lies within the window bounds. -/
theorem statsWindow_previous_month :
    (∀ today t : DT, validDT t →
      (inStatsWindow today t →
        t.y = (if today.m = 1 then today.y - 1 else today.y) ∧
          t.m = (if today.m = 1 then 12 else today.m - 1)) ∧
      (t.y = (if today.m = 1 then today.y - 1 else today.y) →
        t.m = (if today.m = 1 then 12 else today.m - 1) →
        t.usec = 0 → inStatsWindow today t)) ∧
    (∀ (db : DB) (fid : Int) (ms me : DT) (it : FoodItem),
      it ∈ archivedItemsQuery db fid ms me ↔
        it ∈ db.items ∧ it.fridge_id = fid ∧ it.status = "archived" ∧
          ∃ t, it.archived_at = some t ∧ DT.le ms t ∧ DT.le t me) ∧
    (∀ (db : DB) (fid : Int) (ms me : DT) (it : FoodItem),
      it ∈ purchasedItemsQuery db fid ms me ↔
        it ∈ db.items ∧ it.fridge_id = fid ∧
          ∃ t, it.purchase_date = some t ∧ DT.le ms t ∧ DT.le t me) := by
  refine ⟨fun today t hv => ?_, fun db fid ms me it => ?_, fun db fid ms me it => ?_⟩
  · obtain ⟨h1, h2, h3, h4, h5, h6, h7, h8, h9, h10, h11, h12⟩ := hv
    constructor
    · rintro ⟨hs, he⟩
      simp only [getLastMonthRange, DT.le] at hs he
      split_ifs at hs he ⊢ <;> constructor <;> omega
    · intro hy hm hu
      refine ⟨?_, ?_⟩ <;>
        · simp only [getLastMonthRange, DT.le]
          split_ifs at hy hm ⊢ with hcond <;>
            · rw [hy, hm] at h4
              omega
  · rw [archivedItemsQuery, List.mem_filter]
    cases hx : it.archived_at
    · simp [hx, Bool.and_eq_true, beq_iff_eq, decide_eq_true_eq]
    · simp [hx, Bool.and_eq_true, beq_iff_eq, decide_eq_true_eq]
      tauto
  · rw [purchasedItemsQuery, List.mem_filter]
    cases hx : it.purchase_date
    · simp [hx, Bool.and_eq_true, beq_iff_eq, decide_eq_true_eq]
    · simp [hx, Bool.and_eq_true, beq_iff_eq, decide_eq_true_eq]

/-- Witness for C8 (amended): the last whole second of January 2026 is in
the window computed on 2026-02-15. -/
theorem statsWindow_previous_month_case :
    inStatsWindow todayFeb ⟨2026, 1, 31, 23, 59, 59, 0⟩ :=
  (statsWindow_previous_month.1 todayFeb ⟨2026, 1, 31, 23, 59, 59, 0⟩
    (by decide)).2 (by decide) (by decide) rfl

end FridgeElf
